import Mathlib

/- Shallow embedding of the accessibility widgets of this repository
   (src/js/accessibility-utils.js, src/js/accessible-infinite-scroll.js,
   src/js/accessible-dropdown.js, src/js/accessible-carousel.js).

   JavaScript numbers are modelled as Nat/Int (all reachable values here are
   small integers), DOM attribute mutations as explicit state fields, and the
   observable side effects of a call (fetches, status-element writes, live
   announcements) as explicit event lists.  Fallible DOM dereferences are
   modelled with Except. -/

namespace AccessibilityManager

/-- DOM mutations performed synchronously by `announce` on the shared live
    region, plus the timer it schedules (`setTimeout(..., 1000)`). -/
inductive AnnEvent where
  | setAriaLive (priority : String)
  | setText (text : String)
  | scheduleClear (delayMs : Nat)
deriving DecidableEq

/-- The shared live-region element created by `createLiveRegion`:
    its `aria-live` attribute and its text content. -/
structure Announcer where
  ariaLive : String
  text : String
deriving DecidableEq

/-- `createLiveRegion` (accessibility-utils.js lines 19-37): a fresh hidden
    element with `aria-live="polite"` and empty text. -/
def createLiveRegion : Announcer :=
  { ariaLive := "polite", text := "" }

/-- `announce(message, priority)` (accessibility-utils.js lines 40-48):
    sets `aria-live` to the priority, writes the message into the channel,
    and schedules a timeout that clears the text after 1000 ms.  Returns the
    updated channel and the ordered list of mutations performed. -/
def announce (a : Announcer) (message : String) (priority : String) :
    Announcer × List AnnEvent :=
  ({ ariaLive := priority, text := message },
   [AnnEvent.setAriaLive priority, AnnEvent.setText message,
    AnnEvent.scheduleClear 1000])

/-- Body of the `setTimeout` scheduled by `announce` (lines 45-47):
    `this.announcer.textContent = ''`. -/
def clearCallback (a : Announcer) : Announcer :=
  { a with text := "" }

end AccessibilityManager

namespace AccessiblePagination

/-- An item of the paginated list (`{ title, description }` objects built by
    `fetchMoreItems` and rendered by `createItemElement`). -/
structure Item where
  title : String
  description : String
deriving DecidableEq

/-- The `options` object of the `AccessiblePagination` constructor
    (accessible-infinite-scroll.js lines 9-17). -/
structure Options where
  itemsPerPage : Nat
  loadMoreText : String
  loadingText : String
  noMoreText : String
  announceNewItems : Bool
deriving DecidableEq

/-- The constructor defaults (lines 10-15). -/
def defaultOptions : Options :=
  { itemsPerPage := 10
    loadMoreText := "Load more items"
    loadingText := "Loading more items..."
    noMoreText := "No more items to load"
    announceNewItems := true }

/-- Controller state: the instance fields of `AccessiblePagination` plus the
    observable control surface (button, status element, `aria-busy`).
    `items` is the ordered child list of the items container. -/
structure State where
  options : Options
  currentPage : Nat
  totalItems : Nat
  isLoading : Bool
  hasMore : Bool
  items : List Item
  btnDisabled : Bool
  btnText : String
  statusText : String
  ariaBusy : Bool
deriving DecidableEq

/-- Constructor plus `setupStructure`/`setupControls` (lines 19-83): page 1,
    `totalItems` counts the pre-existing children, not loading, `hasMore`
    true, button enabled with the load-more label, empty status text. -/
def setup (existingItems : List Item) (opts : Options) : State :=
  { options := opts
    currentPage := 1
    totalItems := existingItems.length
    isLoading := false
    hasMore := true
    items := existingItems
    btnDisabled := false
    btnText := opts.loadMoreText
    statusText := ""
    ariaBusy := false }

/-- Outcome of the awaited `fetchMoreItems()` call: a resolved item list or a
    rejection (the `catch` path). -/
inductive FetchOutcome where
  | success (items : List Item)
  | failure
deriving DecidableEq

/-- Observable side effects of a `loadMore` call: the fetch being issued,
    writes to the status element (`statusMessage.textContent = ...`), and
    announcements via `window.a11y.announce`. -/
inductive Event where
  | fetchIssued
  | statusWrite (text : String)
  | announceMsg (message : String) (priority : String)
deriving DecidableEq

/-- `setLoading(loading)` (lines 151-164), with the status-element write it
    performs. -/
def setLoading (s : State) (loading : Bool) : State × List Event :=
  if loading then
    ({ s with isLoading := true
              ariaBusy := true
              btnDisabled := true
              btnText := s.options.loadingText
              statusText := "Loading new items..." },
     [Event.statusWrite "Loading new items..."])
  else
    ({ s with isLoading := false
              ariaBusy := false
              btnDisabled := false
              btnText := if s.hasMore then s.options.loadMoreText
                         else s.options.noMoreText
              statusText := "" },
     [Event.statusWrite ""])

/-- `addItems(items)` (lines 166-192): appends the rendered items and bumps
    `totalItems`.  (The transient `tabindex`/focus dance on the first new
    item and its 100 ms removal timer are not part of the persistent state.) -/
def addItems (s : State) (newItems : List Item) : State :=
  { s with items := s.items ++ newItems
           totalItems := s.totalItems + newItems.length }

/-- `loadMore()` (lines 116-149), with the fetch outcome passed explicitly in
    place of the awaited promise.  Returns the post-call state and the
    ordered observable events of the call. -/
def loadMore (s : State) (fetch : FetchOutcome) : State × List Event :=
  if s.isLoading || !s.hasMore then (s, [])
  else
    let p1 := setLoading s true
    let s1 := p1.1
    match fetch with
    | FetchOutcome.success newItems =>
        if 0 < newItems.length then
          let s2 := addItems s1 newItems
          let s3 := { s2 with currentPage := s2.currentPage + 1 }
          let ann := if s3.options.announceNewItems then
              [Event.announceMsg ("Loaded " ++ toString newItems.length ++
                 " more items. Total items: " ++ toString s3.totalItems)
                 "polite"]
            else []
          let p4 := setLoading s3 false
          (p4.1, p1.2 ++ [Event.fetchIssued] ++ ann ++ p4.2)
        else
          let s2 := { s1 with hasMore := false
                              btnDisabled := true
                              btnText := s1.options.noMoreText
                              statusText := "All items have been loaded." }
          let p3 := setLoading s2 false
          (p3.1, p1.2 ++ [Event.fetchIssued] ++
                 [Event.statusWrite "All items have been loaded."] ++ p3.2)
    | FetchOutcome.failure =>
        let s2 := { s1 with
                    statusText := "Error loading items. Please try again." }
        let p3 := setLoading s2 false
        (p3.1, p1.2 ++ [Event.fetchIssued] ++
               [Event.statusWrite "Error loading items. Please try again.",
                Event.announceMsg "Error loading more items" "assertive"] ++
               p3.2)

/-- The reference `fetchMoreItems` (lines 217-233): returns
    `min(itemsPerPage, 50 - totalItems)` simulated items.  (In JS a negative
    `50 - totalItems` makes the `for` loop run zero times; Nat subtraction
    truncates to 0, giving the same empty list.) -/
def fetchMoreItems (s : State) : List Item :=
  let itemsToLoad := min s.options.itemsPerPage (50 - s.totalItems)
  (List.range itemsToLoad).map fun i =>
    { title := "Item " ++ toString (s.totalItems + i + 1)
      description := "This is the description for item " ++
        toString (s.totalItems + i + 1) }

/-- A `loadMore` call whose fetch resolves with the reference
    `fetchMoreItems` data. -/
def loadMoreRef (s : State) : State × List Event :=
  loadMore s (FetchOutcome.success (fetchMoreItems s))

/-- `k` user-triggered `loadMore` calls against the reference item source. -/
def runRef (s : State) : Nat → State
  | 0 => s
  | k + 1 => (loadMoreRef (runRef s k)).1

end AccessiblePagination

namespace AccessibleDropdown

/-- Dropdown state: the `tabindex` attribute of each menu item (in order),
    `currentIndex` (a JS number, -1 when no item is active), and the item
    that last received DOM focus. -/
structure State where
  tabindexes : List Int
  currentIndex : Int
  focusedItem : Option Int
deriving DecidableEq

/-- Constructor plus `setupStructure` (accessible-dropdown.js lines 7-67) for
    a found menu with `n` focusable items: every item gets `tabindex="-1"`
    (line 65) and `currentIndex` starts at -1 (line 19). -/
def setupStructure (n : Nat) : State :=
  { tabindexes := List.replicate n (-1)
    currentIndex := -1
    focusedItem := none }

/-- `focusItem(index)` (lines 207-219): out-of-range indices are ignored;
    otherwise the previously active item (if any) gets `tabindex="-1"`, and
    the target item gets `tabindex="0"` and DOM focus. -/
def focusItem (s : State) (index : Int) : State :=
  if index < 0 ∨ (s.tabindexes.length : Int) ≤ index then s
  else
    let cleared :=
      if 0 ≤ s.currentIndex then
        { s with tabindexes := s.tabindexes.set s.currentIndex.toNat (-1) }
      else s
    { cleared with
        currentIndex := index
        tabindexes := cleared.tabindexes.set index.toNat 0
        focusedItem := some index }

/-- `focusFirstItem` (lines 221-223). -/
def focusFirstItem (s : State) : State := focusItem s 0

/-- `focusLastItem` (lines 225-227). -/
def focusLastItem (s : State) : State :=
  focusItem s ((s.tabindexes.length : Int) - 1)

/-- `focusNextItem` (lines 229-232): `(currentIndex + 1) % length`.  The JS
    `%` agrees with `Int.emod` on the non-negative dividends that occur
    (`currentIndex ≥ -1`). -/
def focusNextItem (s : State) : State :=
  focusItem s ((s.currentIndex + 1) % (s.tabindexes.length : Int))

/-- `focusPreviousItem` (lines 234-237):
    `(currentIndex - 1 + length) % length` (same remark on `%`). -/
def focusPreviousItem (s : State) : State :=
  focusItem s ((s.currentIndex - 1 + (s.tabindexes.length : Int)) %
    (s.tabindexes.length : Int))

/-- `setupStructure` when the menu element cannot be resolved: line 41
    (`if (!this.menu) return;`) leaves the constructor defaults in place. -/
def setupStructureOpt (menu : Option Nat) : State :=
  match menu with
  | none => { tabindexes := [], currentIndex := -1, focusedItem := none }
  | some n => setupStructure n

/-- `setupAccessibility` (lines 127-133): unconditionally evaluates
    `this.menu.appendChild(instructions)`, which throws a TypeError when
    `this.menu` is null. -/
def setupAccessibility (menu : Option Nat) : Except String Unit :=
  match menu with
  | none =>
      Except.error "TypeError: Cannot read properties of null (reading appendChild)"
  | some _ => Except.ok ()

/-- `init()` (lines 24-28) for a trigger whose menu resolves to `some n`
    items, or to `none` when no menu element is found:
    `setupStructure` early-returns on a missing menu, but
    `setupAccessibility` still dereferences `this.menu` and throws. -/
def init (menu : Option Nat) : Except String State :=
  match setupAccessibility menu with
  | Except.error e => Except.error e
  | Except.ok _ => Except.ok (setupStructureOpt menu)

end AccessibleDropdown

namespace AccessibleCarousel

/-- One slide element: its `hidden` class and `tabindex` attribute. -/
structure Slide where
  hidden : Bool
  tabindex : Int
deriving DecidableEq

/-- Carousel state: the slide list, `currentSlide`, the `aria-selected`
    flags of the dot indicators, accumulated live announcements, and the
    `announceSlides` option. -/
structure State where
  slides : List Slide
  currentSlide : Nat
  dotSelected : List Bool
  announcements : List String
  announceSlides : Bool
deriving DecidableEq

/-- Constructor plus `setupStructure`/`setupControls`
    (accessible-carousel.js lines 19, 35-60, 102-122) for `n` slide
    elements with default options: slide 0 visible with `tabindex="0"`, the
    rest hidden with `tabindex="-1"`; dots (one per slide, slide 0 selected)
    exist only when `n > 1`. -/
def init (n : Nat) : State :=
  { slides := (List.range n).map fun idx =>
      { hidden := idx != 0, tabindex := if idx = 0 then 0 else -1 }
    currentSlide := 0
    dotSelected := if 1 < n then (List.range n).map (fun idx => idx == 0) else []
    announcements := []
    announceSlides := true }

/-- `goToSlide(index)` (lines 197-227): out-of-range or current index is a
    no-op; otherwise hides the previous slide (`hidden` class,
    `tabindex="-1"`), shows the target (`tabindex="0"`), moves the dot
    selection, and announces the slide change. -/
def goToSlide (c : State) (index : Int) : State :=
  if index < 0 ∨ (c.slides.length : Int) ≤ index ∨
      index = (c.currentSlide : Int) then c
  else
    let prev := c.currentSlide
    let ni := index.toNat
    let slides1 := (c.slides.set prev { hidden := true, tabindex := -1 }).set
      ni { hidden := false, tabindex := 0 }
    let dots1 := if 0 < c.dotSelected.length then
        (c.dotSelected.set prev false).set ni true
      else c.dotSelected
    let anns := if c.announceSlides then
        c.announcements ++
          ["Slide " ++ toString (ni + 1) ++ " of " ++
            toString c.slides.length]
      else c.announcements
    { slides := slides1
      currentSlide := ni
      dotSelected := dots1
      announcements := anns
      announceSlides := c.announceSlides }

/-- `nextSlide` (lines 229-232): `(currentSlide + 1) % slides.length`
    (`Int.emod` agrees with the JS `%` on these non-negative dividends). -/
def nextSlide (c : State) : State :=
  goToSlide c (((c.currentSlide : Int) + 1) % (c.slides.length : Int))

/-- `previousSlide` (lines 234-237):
    `(currentSlide - 1 + slides.length) % slides.length`. -/
def previousSlide (c : State) : State :=
  goToSlide c (((c.currentSlide : Int) - 1 + (c.slides.length : Int)) %
    (c.slides.length : Int))

end AccessibleCarousel

/-- The tabindex list that holds `0` at position `j` and `-1` everywhere
    else: the shape of a correctly maintained roving tab stop. -/
def onlyAt (n j : Nat) : List Int := (List.replicate n (-1)).set j 0

/-- Number of elements of a tabindex list that carry the active roving tab
    stop (`tabindex="0"`). -/
def countTabZero : List Int → Nat
  | [] => 0
  | t :: rest => (if t = 0 then 1 else 0) + countTabZero rest

/-- Roving-tab-stop invariant for the carousel: `currentSlide` is in range
    and exactly its slide has `tabindex="0"`. -/
def CarouselTabInv (c : AccessibleCarousel.State) : Prop :=
  c.currentSlide < c.slides.length ∧
  (c.slides.map fun sl => sl.tabindex) =
    onlyAt c.slides.length c.currentSlide

/-- Roving-tab-stop invariant for the dropdown: either no item has been
    focused yet (`currentIndex = -1`, all tabindexes `-1`), or
    `currentIndex` is in range and exactly its item has `tabindex="0"`. -/
def DropdownTabInv (s : AccessibleDropdown.State) : Prop :=
  (s.currentIndex = -1 ∧
    s.tabindexes = List.replicate s.tabindexes.length (-1)) ∨
  (0 ≤ s.currentIndex ∧ s.currentIndex < (s.tabindexes.length : Int) ∧
    s.tabindexes = onlyAt s.tabindexes.length s.currentIndex.toNat)

/-- The spec scenario start state: a container with 3 existing items and the
    default `itemsPerPage = 10`. -/
def scenarioStart : AccessiblePagination.State :=
  AccessiblePagination.setup
    (List.replicate 3 { title := "Existing item", description := "Existing item" })
    AccessiblePagination.defaultOptions

/-- An idle controller used to instantiate hypotheses at a concrete state. -/
def pagIdle : AccessiblePagination.State :=
  AccessiblePagination.setup [] AccessiblePagination.defaultOptions

/-- A controller observed mid-load (`isLoading = true`). -/
def pagLoading : AccessiblePagination.State :=
  { options := AccessiblePagination.defaultOptions
    currentPage := 1
    totalItems := 0
    isLoading := true
    hasMore := true
    items := []
    btnDisabled := true
    btnText := "Loading more items..."
    statusText := "Loading new items..."
    ariaBusy := true }

/-- A dropdown with three items whose second item holds the tab stop. -/
def dropdownThree : AccessibleDropdown.State :=
  { tabindexes := [-1, 0, -1], currentIndex := 1, focusedItem := some 1 }

/-- A freshly initialized two-slide carousel. -/
def carouselTwo : AccessibleCarousel.State := AccessibleCarousel.init 2

namespace AccessiblePagination

/-- The guard on line 117: when `isLoading` is set or `hasMore` is cleared,
    `loadMore` returns immediately, issuing no fetch and performing no
    mutation. -/
lemma loadMore_noop (s : State) (f : FetchOutcome)
    (h : s.isLoading = true ∨ s.hasMore = false) : loadMore s f = (s, []) := by
  rcases h with h | h <;> simp [loadMore, h]

/-- Explicit final state and event trace of a failed load from an idle,
    non-exhausted state. -/
lemma loadMore_failure_eq (s : State) (h1 : s.isLoading = false)
    (h2 : s.hasMore = true) :
    loadMore s FetchOutcome.failure =
      ({ s with isLoading := false
                ariaBusy := false
                btnDisabled := false
                btnText := s.options.loadMoreText
                statusText := "" },
       [Event.statusWrite "Loading new items...", Event.fetchIssued,
        Event.statusWrite "Error loading items. Please try again.",
        Event.announceMsg "Error loading more items" "assertive",
        Event.statusWrite ""]) := by
  simp [loadMore, setLoading, h1, h2]

/-- Explicit final state and event trace of a load whose fetch resolves with
    zero items, from an idle, non-exhausted state. -/
lemma loadMore_empty_eq (s : State) (h1 : s.isLoading = false)
    (h2 : s.hasMore = true) :
    loadMore s (FetchOutcome.success []) =
      ({ s with isLoading := false
                hasMore := false
                ariaBusy := false
                btnDisabled := false
                btnText := s.options.noMoreText
                statusText := "" },
       [Event.statusWrite "Loading new items...", Event.fetchIssued,
        Event.statusWrite "All items have been loaded.",
        Event.statusWrite ""]) := by
  simp [loadMore, setLoading, h1, h2]

/-- Once `hasMore` is false, any sequence of further `loadMore` calls leaves
    the state untouched. -/
lemma foldl_loadMore_noop (t : State) (ht : t.hasMore = false) :
    ∀ fs : List FetchOutcome,
      fs.foldl (fun u f => (loadMore u f).1) t = t := by
  intro fs
  induction fs with
  | nil => rfl
  | cons f rest ih =>
      have hstep : (loadMore t f).1 = t := by
        rw [loadMore_noop t f (Or.inr ht)]
      simp only [List.foldl_cons, hstep, ih]

end AccessiblePagination

/-- C1: while `isLoading` is true or after `hasMore` has become false, a
    `loadMore()` call is a no-op: no fetch is issued, no event is emitted,
    and every controller field (`currentPage`, `totalItems`, `isLoading`,
    `hasMore`, the item list, and the control surface) is unchanged. -/
theorem loadMore_guarded_noop (s : AccessiblePagination.State)
    (f : AccessiblePagination.FetchOutcome)
    (h : s.isLoading = true ∨ s.hasMore = false) :
    AccessiblePagination.loadMore s f = (s, []) :=
  AccessiblePagination.loadMore_noop s f h

/-- Witness for C1 at a concrete mid-load controller state. -/
theorem loadMore_guarded_noop_witness :
    AccessiblePagination.loadMore pagLoading
      AccessiblePagination.FetchOutcome.failure = (pagLoading, []) :=
  loadMore_guarded_noop pagLoading AccessiblePagination.FetchOutcome.failure
    (Or.inl rfl)

/-- C2: when a load from an idle, non-exhausted controller resolves with zero
    items, `hasMore` becomes false, and this is permanent: every sequence of
    further `loadMore()` calls (whatever their fetch outcomes) leaves the
    state exactly as it is, and every single further call is a no-op with no
    events — the Exhausted state is terminal. -/
theorem exhaustion_terminal (s : AccessiblePagination.State)
    (h1 : s.isLoading = false) (h2 : s.hasMore = true) :
    (AccessiblePagination.loadMore s
        (AccessiblePagination.FetchOutcome.success [])).1.hasMore = false ∧
    (∀ fs : List AccessiblePagination.FetchOutcome,
        fs.foldl (fun u f => (AccessiblePagination.loadMore u f).1)
          (AccessiblePagination.loadMore s
            (AccessiblePagination.FetchOutcome.success [])).1 =
        (AccessiblePagination.loadMore s
          (AccessiblePagination.FetchOutcome.success [])).1) ∧
    (∀ f : AccessiblePagination.FetchOutcome,
        AccessiblePagination.loadMore
          (AccessiblePagination.loadMore s
            (AccessiblePagination.FetchOutcome.success [])).1 f =
        ((AccessiblePagination.loadMore s
            (AccessiblePagination.FetchOutcome.success [])).1, [])) := by
  have hm : (AccessiblePagination.loadMore s
      (AccessiblePagination.FetchOutcome.success [])).1.hasMore = false := by
    rw [AccessiblePagination.loadMore_empty_eq s h1 h2]
  exact ⟨hm, fun fs => AccessiblePagination.foldl_loadMore_noop _ hm fs,
    fun f => AccessiblePagination.loadMore_noop _ f (Or.inr hm)⟩

/-- Witness for C2: a concrete idle controller, a concrete follow-up call
    sequence, and a concrete single follow-up call. -/
theorem exhaustion_terminal_witness :
    (AccessiblePagination.loadMore pagIdle
        (AccessiblePagination.FetchOutcome.success [])).1.hasMore = false ∧
    ([AccessiblePagination.FetchOutcome.failure,
      AccessiblePagination.FetchOutcome.success
        [{ title := "t", description := "d" }]].foldl
        (fun u f => (AccessiblePagination.loadMore u f).1)
        (AccessiblePagination.loadMore pagIdle
          (AccessiblePagination.FetchOutcome.success [])).1 =
      (AccessiblePagination.loadMore pagIdle
        (AccessiblePagination.FetchOutcome.success [])).1) ∧
    (AccessiblePagination.loadMore
        (AccessiblePagination.loadMore pagIdle
          (AccessiblePagination.FetchOutcome.success [])).1
        AccessiblePagination.FetchOutcome.failure =
      ((AccessiblePagination.loadMore pagIdle
          (AccessiblePagination.FetchOutcome.success [])).1, [])) := by
  have h := exhaustion_terminal pagIdle rfl rfl
  exact ⟨h.1, h.2.1 _, h.2.2 _⟩

/-- C3: a failed fetch from an idle, non-exhausted controller writes a
    user-visible error message to the status element, announces the error at
    assertive priority, leaves `hasMore` unchanged (a user-initiated retry
    stays possible), and resets `isLoading` to false before returning
    control — the failure is not fatal. -/
theorem fetch_failure_nonfatal (s : AccessiblePagination.State)
    (h1 : s.isLoading = false) (h2 : s.hasMore = true) :
    AccessiblePagination.Event.statusWrite
        "Error loading items. Please try again." ∈
      (AccessiblePagination.loadMore s
        AccessiblePagination.FetchOutcome.failure).2 ∧
    AccessiblePagination.Event.announceMsg "Error loading more items"
        "assertive" ∈
      (AccessiblePagination.loadMore s
        AccessiblePagination.FetchOutcome.failure).2 ∧
    (AccessiblePagination.loadMore s
        AccessiblePagination.FetchOutcome.failure).1.hasMore = s.hasMore ∧
    (AccessiblePagination.loadMore s
        AccessiblePagination.FetchOutcome.failure).1.isLoading = false := by
  rw [AccessiblePagination.loadMore_failure_eq s h1 h2]
  refine ⟨by simp, by simp, rfl, rfl⟩

/-- Witness for C3 at a concrete idle controller. -/
theorem fetch_failure_nonfatal_witness :
    AccessiblePagination.Event.statusWrite
        "Error loading items. Please try again." ∈
      (AccessiblePagination.loadMore pagIdle
        AccessiblePagination.FetchOutcome.failure).2 ∧
    AccessiblePagination.Event.announceMsg "Error loading more items"
        "assertive" ∈
      (AccessiblePagination.loadMore pagIdle
        AccessiblePagination.FetchOutcome.failure).2 ∧
    (AccessiblePagination.loadMore pagIdle
        AccessiblePagination.FetchOutcome.failure).1.hasMore =
      pagIdle.hasMore ∧
    (AccessiblePagination.loadMore pagIdle
        AccessiblePagination.FetchOutcome.failure).1.isLoading = false :=
  fetch_failure_nonfatal pagIdle rfl rfl

/-- C10 counterexample: at a concrete idle controller, a failed `loadMore()`
    does NOT leave the error text as a lasting change — the `finally` path
    (`setLoading(false)`, line 162) clears the status element before the
    call returns, so the final status text is empty, not the error
    message. -/
theorem failed_load_status_not_lasting :
    ¬ ((AccessiblePagination.loadMore
          (AccessiblePagination.setup
            [{ title := "A", description := "a" }]
            AccessiblePagination.defaultOptions)
          AccessiblePagination.FetchOutcome.failure).1.statusText =
        "Error loading items. Please try again.") := by
  decide

/-- C10 (amended): a failed `loadMore()` from an idle, non-exhausted
    controller is fully atomic: `currentPage`, `totalItems`, the rendered
    item list and `hasMore` are left exactly as before; the error status
    text is transient — it is written during the call but cleared when
    `isLoading` is reset — so the only lasting observable change is the
    assertive announcement, and `isLoading` returns to false. -/
theorem failed_load_atomic (s : AccessiblePagination.State)
    (h1 : s.isLoading = false) (h2 : s.hasMore = true) :
    (AccessiblePagination.loadMore s
        AccessiblePagination.FetchOutcome.failure).1.currentPage =
      s.currentPage ∧
    (AccessiblePagination.loadMore s
        AccessiblePagination.FetchOutcome.failure).1.totalItems =
      s.totalItems ∧
    (AccessiblePagination.loadMore s
        AccessiblePagination.FetchOutcome.failure).1.items = s.items ∧
    (AccessiblePagination.loadMore s
        AccessiblePagination.FetchOutcome.failure).1.hasMore = s.hasMore ∧
    (AccessiblePagination.loadMore s
        AccessiblePagination.FetchOutcome.failure).1.isLoading = false ∧
    (AccessiblePagination.loadMore s
        AccessiblePagination.FetchOutcome.failure).1.statusText = "" ∧
    AccessiblePagination.Event.statusWrite
        "Error loading items. Please try again." ∈
      (AccessiblePagination.loadMore s
        AccessiblePagination.FetchOutcome.failure).2 ∧
    AccessiblePagination.Event.announceMsg "Error loading more items"
        "assertive" ∈
      (AccessiblePagination.loadMore s
        AccessiblePagination.FetchOutcome.failure).2 := by
  rw [AccessiblePagination.loadMore_failure_eq s h1 h2]
  refine ⟨rfl, rfl, rfl, rfl, rfl, rfl, by simp, by simp⟩

/-- Witness for the amended C10 at a concrete idle controller with one
    rendered item. -/
theorem failed_load_atomic_witness :
    (AccessiblePagination.loadMore scenarioStart
        AccessiblePagination.FetchOutcome.failure).1.currentPage =
      scenarioStart.currentPage ∧
    (AccessiblePagination.loadMore scenarioStart
        AccessiblePagination.FetchOutcome.failure).1.totalItems =
      scenarioStart.totalItems ∧
    (AccessiblePagination.loadMore scenarioStart
        AccessiblePagination.FetchOutcome.failure).1.items =
      scenarioStart.items ∧
    (AccessiblePagination.loadMore scenarioStart
        AccessiblePagination.FetchOutcome.failure).1.hasMore =
      scenarioStart.hasMore ∧
    (AccessiblePagination.loadMore scenarioStart
        AccessiblePagination.FetchOutcome.failure).1.isLoading = false ∧
    (AccessiblePagination.loadMore scenarioStart
        AccessiblePagination.FetchOutcome.failure).1.statusText = "" ∧
    AccessiblePagination.Event.statusWrite
        "Error loading items. Please try again." ∈
      (AccessiblePagination.loadMore scenarioStart
        AccessiblePagination.FetchOutcome.failure).2 ∧
    AccessiblePagination.Event.announceMsg "Error loading more items"
        "assertive" ∈
      (AccessiblePagination.loadMore scenarioStart
        AccessiblePagination.FetchOutcome.failure).2 :=
  failed_load_atomic scenarioStart rfl rfl

/-- C4 counterexample: in the spec scenario (3 existing items,
    `itemsPerPage = 10`, reference source `min(10, 50 - totalItems)`), the
    5th call's response yields 7 items — not 0 — and after 5 calls the
    controller still has `hasMore = true`, so the 5th call does not flip it
    to Exhausted. -/
theorem fifth_call_returns_seven_items :
    (AccessiblePagination.fetchMoreItems
        (AccessiblePagination.runRef scenarioStart 4)).length = 7 ∧
    ¬ ((AccessiblePagination.fetchMoreItems
          (AccessiblePagination.runRef scenarioStart 4)).length = 0 ∧
        (AccessiblePagination.runRef scenarioStart 5).hasMore = false) := by
  decide

/-- C4 (amended): in the spec scenario, after 5 successful `loadMore()`
    calls `totalItems = 50` and the 5th response yields 7 items; it is the
    6th call whose response yields 0 items and flips the controller to the
    Exhausted state (`hasMore = false`, `totalItems` still 50). -/
theorem reference_scenario_exhausts_on_sixth_call :
    (AccessiblePagination.runRef scenarioStart 5).totalItems = 50 ∧
    (AccessiblePagination.fetchMoreItems
        (AccessiblePagination.runRef scenarioStart 4)).length = 7 ∧
    (AccessiblePagination.runRef scenarioStart 5).hasMore = true ∧
    (AccessiblePagination.fetchMoreItems
        (AccessiblePagination.runRef scenarioStart 5)).length = 0 ∧
    (AccessiblePagination.runRef scenarioStart 6).hasMore = false ∧
    (AccessiblePagination.runRef scenarioStart 6).totalItems = 50 := by
  decide

/-- C5 counterexample: two immediate `announce("Slide 2 of 4")` calls perform
    no clearing write at all — neither call's synchronous mutation trace
    contains `setText ""` — so `announce` does not clear the shared channel
    before rewriting it; the only clear is the one scheduled for 1 second
    later. -/
theorem announce_issues_no_forced_clear :
    AccessibilityManager.AnnEvent.setText "" ∉
      ((AccessibilityManager.announce AccessibilityManager.createLiveRegion
          "Slide 2 of 4" "polite").2 ++
        (AccessibilityManager.announce
          (AccessibilityManager.announce AccessibilityManager.createLiveRegion
            "Slide 2 of 4" "polite").1
          "Slide 2 of 4" "polite").2) := by
  decide

/-- C5 (amended): `announce(message, priority)` writes the message into the
    shared channel at the given priority WITHOUT first clearing it, and
    schedules the channel to be auto-cleared after a fixed 1-second delay;
    an immediate repeat of the same message performs a second identical
    write (leaving the channel value unchanged), so re-reading of repeated
    identical announcements relies on the delayed clear, not on a forced
    clear-before-rewrite. -/
theorem announce_delayed_clear_only (a : AccessibilityManager.Announcer)
    (message priority : String) :
    (AccessibilityManager.announce a message priority).1 =
      { ariaLive := priority, text := message } ∧
    (AccessibilityManager.announce a message priority).2 =
      [AccessibilityManager.AnnEvent.setAriaLive priority,
       AccessibilityManager.AnnEvent.setText message,
       AccessibilityManager.AnnEvent.scheduleClear 1000] ∧
    AccessibilityManager.clearCallback
        (AccessibilityManager.announce a message priority).1 =
      { ariaLive := priority, text := "" } ∧
    (AccessibilityManager.announce
        (AccessibilityManager.announce a message priority).1
        message priority).1.text = message :=
  ⟨rfl, rfl, rfl, rfl⟩

lemma countTabZero_replicate_neg (n : Nat) :
    countTabZero (List.replicate n (-1)) = 0 := by
  induction n with
  | zero => rfl
  | succ m ih => simp [List.replicate_succ, countTabZero, ih]

lemma set_replicate_self (n j : Nat) :
    (List.replicate n (-1 : Int)).set j (-1) = List.replicate n (-1) := by
  induction n generalizing j with
  | zero => simp
  | succ m ih =>
      cases j with
      | zero => simp [List.replicate_succ, List.set]
      | succ k => simp [List.replicate_succ, List.set, ih]

lemma onlyAt_set_neg (n j : Nat) :
    (onlyAt n j).set j (-1) = List.replicate n (-1) := by
  unfold onlyAt
  rw [List.set_set]
  exact set_replicate_self n j

lemma length_onlyAt (n j : Nat) : (onlyAt n j).length = n := by
  simp [onlyAt]

lemma countTabZero_onlyAt (n j : Nat) (h : j < n) :
    countTabZero (onlyAt n j) = 1 := by
  induction n generalizing j with
  | zero => exact absurd h (Nat.not_lt_zero j)
  | succ m ih =>
      cases j with
      | zero =>
          simp [onlyAt, List.replicate_succ, List.set, countTabZero,
            countTabZero_replicate_neg]
      | succ k =>
          have hk : k < m := Nat.lt_of_succ_lt_succ h
          have := ih k hk
          simp only [onlyAt, List.replicate_succ, List.set] at this ⊢
          simp [countTabZero, this]

namespace AccessibleDropdown

lemma focusItem_length (s : State) (idx : Int) :
    (focusItem s idx).tabindexes.length = s.tabindexes.length := by
  unfold focusItem
  by_cases hg : idx < 0 ∨ (s.tabindexes.length : Int) ≤ idx
  · rw [if_pos hg]
  · rw [if_neg hg]
    by_cases hc : 0 ≤ s.currentIndex <;> simp [hc]

lemma focusItem_currentIndex (s : State) (idx : Int)
    (h0 : 0 ≤ idx) (hl : idx < (s.tabindexes.length : Int)) :
    (focusItem s idx).currentIndex = idx := by
  have hg : ¬ (idx < 0 ∨ (s.tabindexes.length : Int) ≤ idx) := by omega
  unfold focusItem
  rw [if_neg hg]

/-- Under the roving invariant, a successful `focusItem` leaves the tabindex
    list with `0` exactly at the target index. -/
lemma focusItem_tabindexes (s : State) (idx : Int)
    (hInv : DropdownTabInv s) (h0 : 0 ≤ idx)
    (hl : idx < (s.tabindexes.length : Int)) :
    (focusItem s idx).tabindexes = onlyAt s.tabindexes.length idx.toNat := by
  have hg : ¬ (idx < 0 ∨ (s.tabindexes.length : Int) ≤ idx) := by omega
  unfold focusItem
  rw [if_neg hg]
  rcases hInv with ⟨hci, htab⟩ | ⟨hc0, hcl, htab⟩
  · have hneg : ¬ (0 ≤ s.currentIndex) := by omega
    simp only [hneg, if_false]
    conv_lhs => rw [htab]
    rfl
  · simp only [hc0, if_true]
    conv_lhs => rw [htab]
    rw [onlyAt_set_neg]
    rfl

lemma focusItem_preserves_inv (s : State) (idx : Int)
    (hInv : DropdownTabInv s) : DropdownTabInv (focusItem s idx) := by
  by_cases hg : idx < 0 ∨ (s.tabindexes.length : Int) ≤ idx
  · unfold focusItem
    rw [if_pos hg]
    exact hInv
  · have h0 : 0 ≤ idx := by omega
    have hl : idx < (s.tabindexes.length : Int) := by omega
    have hlen := focusItem_length s idx
    have hci := focusItem_currentIndex s idx h0 hl
    have htab := focusItem_tabindexes s idx hInv h0 hl
    right
    refine ⟨by rw [hci]; exact h0, by rw [hci, hlen]; exact hl, ?_⟩
    rw [htab, hci, length_onlyAt]

lemma focusItem_count_one (s : State) (idx : Int)
    (hInv : DropdownTabInv s) (h0 : 0 ≤ idx)
    (hl : idx < (s.tabindexes.length : Int)) :
    countTabZero (focusItem s idx).tabindexes = 1 := by
  rw [focusItem_tabindexes s idx hInv h0 hl]
  exact countTabZero_onlyAt _ _ (by omega)

lemma focusNextItem_spec (s : State) (i : Nat)
    (h1 : s.currentIndex = (i : Int)) (h2 : i < s.tabindexes.length) :
    (focusNextItem s).currentIndex =
      (((i + 1) % s.tabindexes.length : Nat) : Int) ∧
    (focusNextItem s).tabindexes.length = s.tabindexes.length := by
  have hn : 0 < s.tabindexes.length := Nat.lt_of_le_of_lt (Nat.zero_le i) h2
  have hidx : (s.currentIndex + 1) % (s.tabindexes.length : Int) =
      (((i + 1) % s.tabindexes.length : Nat) : Int) := by
    rw [h1]; push_cast; ring
  have hm : (i + 1) % s.tabindexes.length < s.tabindexes.length :=
    Nat.mod_lt _ hn
  unfold focusNextItem
  rw [hidx]
  exact ⟨focusItem_currentIndex s _ (Int.natCast_nonneg _)
      (by exact_mod_cast hm),
    focusItem_length s _⟩

lemma iterate_focusNextItem (s : State) (i : Nat)
    (h1 : s.currentIndex = (i : Int)) (h2 : i < s.tabindexes.length)
    (k : Nat) :
    (Nat.iterate focusNextItem k s).currentIndex =
      (((i + k) % s.tabindexes.length : Nat) : Int) ∧
    (Nat.iterate focusNextItem k s).tabindexes.length =
      s.tabindexes.length := by
  induction k with
  | zero => simpa [Nat.mod_eq_of_lt h2] using h1
  | succ m ih =>
      have hn : 0 < s.tabindexes.length := Nat.lt_of_le_of_lt (Nat.zero_le i) h2
      have hlt : (i + m) % s.tabindexes.length < s.tabindexes.length :=
        Nat.mod_lt _ hn
      have h2' : (i + m) % s.tabindexes.length <
          (Nat.iterate focusNextItem m s).tabindexes.length := by
        rw [ih.2]; exact hlt
      have hstep := focusNextItem_spec (Nat.iterate focusNextItem m s)
        ((i + m) % s.tabindexes.length) ih.1 h2'
      rw [Function.iterate_succ_apply']
      refine ⟨?_, by rw [hstep.2, ih.2]⟩
      rw [hstep.1, ih.2, Nat.mod_add_mod, Nat.add_assoc]

end AccessibleDropdown

namespace AccessibleCarousel

lemma goToSlide_moves (c : State) (idx : Int)
    (h0 : 0 ≤ idx) (hl : idx < (c.slides.length : Int))
    (hne : idx ≠ (c.currentSlide : Int)) :
    (goToSlide c idx).currentSlide = idx.toNat ∧
    (goToSlide c idx).slides.length = c.slides.length := by
  have hg : ¬ (idx < 0 ∨ (c.slides.length : Int) ≤ idx ∨
      idx = (c.currentSlide : Int)) := by
    push_neg
    exact ⟨by omega, by omega, hne⟩
  unfold goToSlide
  rw [if_neg hg]
  exact ⟨rfl, by simp⟩

lemma nextSlide_spec (c : State) (h : c.currentSlide < c.slides.length) :
    (nextSlide c).currentSlide = (c.currentSlide + 1) % c.slides.length ∧
    (nextSlide c).slides.length = c.slides.length := by
  have hn : 0 < c.slides.length := Nat.lt_of_le_of_lt (Nat.zero_le _) h
  have hidx : ((c.currentSlide : Int) + 1) % (c.slides.length : Int) =
      (((c.currentSlide + 1) % c.slides.length : Nat) : Int) := by
    push_cast; ring
  unfold nextSlide
  rw [hidx]
  by_cases hsame : (c.currentSlide + 1) % c.slides.length = c.currentSlide
  · have hcast : (((c.currentSlide + 1) % c.slides.length : Nat) : Int) =
        (c.currentSlide : Int) := by exact_mod_cast hsame
    unfold goToSlide
    rw [if_pos (Or.inr (Or.inr hcast))]
    exact ⟨hsame.symm, rfl⟩
  · have hmod : (c.currentSlide + 1) % c.slides.length < c.slides.length :=
      Nat.mod_lt _ hn
    have hmoves := goToSlide_moves c _ (Int.natCast_nonneg _)
      (by exact_mod_cast hmod)
      (by exact_mod_cast hsame)
    refine ⟨?_, hmoves.2⟩
    rw [hmoves.1, Int.toNat_natCast]

lemma iterate_nextSlide (c : State) (h : c.currentSlide < c.slides.length)
    (k : Nat) :
    (Nat.iterate nextSlide k c).currentSlide =
      (c.currentSlide + k) % c.slides.length ∧
    (Nat.iterate nextSlide k c).slides.length = c.slides.length := by
  induction k with
  | zero => simp [Nat.mod_eq_of_lt h]
  | succ m ih =>
      have hn : 0 < c.slides.length := Nat.lt_of_le_of_lt (Nat.zero_le _) h
      have hlt : (c.currentSlide + m) % c.slides.length < c.slides.length :=
        Nat.mod_lt _ hn
      have h' : (Nat.iterate nextSlide m c).currentSlide <
          (Nat.iterate nextSlide m c).slides.length := by
        rw [ih.1, ih.2]; exact hlt
      have hstep := nextSlide_spec (Nat.iterate nextSlide m c) h'
      rw [Function.iterate_succ_apply']
      refine ⟨?_, by rw [hstep.2, ih.2]⟩
      rw [hstep.1, ih.1, ih.2, Nat.mod_add_mod, Nat.add_assoc]

end AccessibleCarousel

/-- C9: calling `goToSlide` with the current slide index is a complete
    no-op: the guard on line 198 returns before any slide visibility,
    `tabindex`, dot state, or announcement changes, so the state is exactly
    unchanged and no duplicate announcement is produced. -/
theorem goToSlide_current_noop (c : AccessibleCarousel.State) :
    AccessibleCarousel.goToSlide c (c.currentSlide : Int) = c := by
  simp [AccessibleCarousel.goToSlide]

/-- C7: from a valid current index `i` in a sequence of `n ≥ 1` focusable
    items, `focusNextItem` moves the index to `(i + 1) mod n`,
    `focusPreviousItem` moves it to `(i - 1 + n) mod n`, applying
    `focusNextItem` `n` times returns the index to `i`, and the carousel's
    `nextSlide` enjoys the same cyclic property over its slides. -/
theorem focus_wraparound_cycle (s : AccessibleDropdown.State) (i : Nat)
    (h1 : s.currentIndex = (i : Int)) (h2 : i < s.tabindexes.length) :
    (AccessibleDropdown.focusNextItem s).currentIndex =
      (((i + 1) % s.tabindexes.length : Nat) : Int) ∧
    (AccessibleDropdown.focusPreviousItem s).currentIndex =
      ((i : Int) - 1 + (s.tabindexes.length : Int)) %
        (s.tabindexes.length : Int) ∧
    (Nat.iterate AccessibleDropdown.focusNextItem s.tabindexes.length
        s).currentIndex = (i : Int) ∧
    (∀ c : AccessibleCarousel.State, c.currentSlide < c.slides.length →
        (Nat.iterate AccessibleCarousel.nextSlide c.slides.length
          c).currentSlide = c.currentSlide) := by
  have hn : 0 < s.tabindexes.length := Nat.lt_of_le_of_lt (Nat.zero_le i) h2
  have hnz : (s.tabindexes.length : Int) ≠ 0 := by
    exact_mod_cast Nat.pos_iff_ne_zero.mp hn
  have hpos : (0 : Int) < (s.tabindexes.length : Int) := by exact_mod_cast hn
  refine ⟨(AccessibleDropdown.focusNextItem_spec s i h1 h2).1, ?_, ?_, ?_⟩
  · unfold AccessibleDropdown.focusPreviousItem
    rw [h1]
    exact AccessibleDropdown.focusItem_currentIndex s _
      (Int.emod_nonneg _ hnz) (Int.emod_lt_of_pos _ hpos)
  · have hiter :=
      (AccessibleDropdown.iterate_focusNextItem s i h1 h2
        s.tabindexes.length).1
    rw [hiter, Nat.add_mod_right, Nat.mod_eq_of_lt h2]
  · intro c hc
    have hiter := (AccessibleCarousel.iterate_nextSlide c hc
      c.slides.length).1
    rw [hiter, Nat.add_mod_right, Nat.mod_eq_of_lt hc]

/-- Witness for C7 at a three-item dropdown with current index 1 and a
    two-slide carousel. -/
theorem focus_wraparound_cycle_witness :
    (AccessibleDropdown.focusNextItem dropdownThree).currentIndex =
      (((1 + 1) % dropdownThree.tabindexes.length : Nat) : Int) ∧
    (AccessibleDropdown.focusPreviousItem dropdownThree).currentIndex =
      (((1 : Nat) : Int) - 1 + (dropdownThree.tabindexes.length : Int)) %
        (dropdownThree.tabindexes.length : Int) ∧
    (Nat.iterate AccessibleDropdown.focusNextItem
        dropdownThree.tabindexes.length dropdownThree).currentIndex =
      ((1 : Nat) : Int) ∧
    (Nat.iterate AccessibleCarousel.nextSlide carouselTwo.slides.length
        carouselTwo).currentSlide = carouselTwo.currentSlide := by
  have h := focus_wraparound_cycle dropdownThree 1 rfl (by decide)
  exact ⟨h.1, h.2.1, h.2.2.1, h.2.2.2 carouselTwo (by decide)⟩

lemma map_range_const_neg (m : Nat) :
    (List.range m).map (fun _ => (-1 : Int)) = List.replicate m (-1) := by
  induction m with
  | zero => rfl
  | succ k ih =>
      rw [List.range_succ, List.map_append, ih, List.replicate_succ']
      rfl

namespace AccessibleCarousel

lemma init_tab_map (n : Nat) :
    ((init n).slides.map fun sl => sl.tabindex) = onlyAt n 0 := by
  cases n with
  | zero => rfl
  | succ m =>
      unfold init onlyAt
      rw [List.range_succ_eq_map]
      simp only [List.map_cons, List.map_map, List.replicate_succ, List.set]
      refine congrArg (fun l => (0 : Int) :: l) ?_
      rw [List.eq_replicate_iff]
      refine ⟨by simp, ?_⟩
      intro b hb
      simp only [List.mem_map, Function.comp] at hb
      obtain ⟨x, _, hbx⟩ := hb
      simp at hbx
      exact hbx.symm

lemma init_inv (n : Nat) (hn : 1 ≤ n) : CarouselTabInv (init n) := by
  have hlen : (init n).slides.length = n := by simp [init]
  constructor
  · rw [hlen]
    exact hn
  · rw [hlen]
    exact init_tab_map n

lemma goToSlide_preserves_inv (c : State) (idx : Int)
    (hInv : CarouselTabInv c) : CarouselTabInv (goToSlide c idx) := by
  obtain ⟨hlt, hmap⟩ := hInv
  by_cases hg : idx < 0 ∨ (c.slides.length : Int) ≤ idx ∨
      idx = (c.currentSlide : Int)
  · unfold goToSlide
    rw [if_pos hg]
    exact ⟨hlt, hmap⟩
  · push_neg at hg
    obtain ⟨h0, hl, hne⟩ := hg
    have hg' : ¬ (idx < 0 ∨ (c.slides.length : Int) ≤ idx ∨
        idx = (c.currentSlide : Int)) := by
      push_neg
      exact ⟨h0, hl, hne⟩
    unfold goToSlide
    rw [if_neg hg']
    constructor
    · simp only [List.length_set]
      omega
    · simp only [List.length_set, List.map_set, hmap]
      rw [onlyAt_set_neg]
      rfl

lemma inv_count_one (c : State) (hInv : CarouselTabInv c) :
    countTabZero (c.slides.map fun sl => sl.tabindex) = 1 := by
  rw [hInv.2]
  exact countTabZero_onlyAt _ _ hInv.1

end AccessibleCarousel

/-- C6 counterexample: immediately after a dropdown is initialized over 2
    focusable items, NO item carries the active roving tab stop —
    `setupStructure` (line 65) gives every item `tabindex="-1"` — so it is
    not the case that exactly one item carries it at every moment after
    initialization. -/
theorem dropdown_after_setup_no_tab_stop :
    ¬ (countTabZero (AccessibleDropdown.setupStructure 2).tabindexes = 1) := by
  decide

/-- C6 (amended): for the carousel the invariant holds as stated — after
    initialization over `n ≥ 1` slides exactly one slide carries
    `tabindex="0"` and every `goToSlide` call preserves this.  For the
    dropdown, initialization gives every item `tabindex="-1"` (no active
    roving tab stop, `currentIndex = -1`); the exactly-one invariant is only
    established by the first successful `focusItem` call, after which every
    focus-movement operation (all of which go through `focusItem`) preserves
    it. -/
theorem roving_tab_stop_amended :
    (∀ n : Nat, 1 ≤ n → CarouselTabInv (AccessibleCarousel.init n)) ∧
    (∀ (c : AccessibleCarousel.State) (idx : Int),
        CarouselTabInv c → CarouselTabInv (AccessibleCarousel.goToSlide c idx)) ∧
    (∀ c : AccessibleCarousel.State, CarouselTabInv c →
        countTabZero (c.slides.map fun sl => sl.tabindex) = 1) ∧
    (∀ n : Nat, countTabZero (AccessibleDropdown.setupStructure n).tabindexes = 0) ∧
    (∀ (s : AccessibleDropdown.State) (idx : Int),
        DropdownTabInv s → DropdownTabInv (AccessibleDropdown.focusItem s idx)) ∧
    (∀ (s : AccessibleDropdown.State) (idx : Int),
        DropdownTabInv s → 0 ≤ idx → idx < (s.tabindexes.length : Int) →
        countTabZero (AccessibleDropdown.focusItem s idx).tabindexes = 1) := by
  refine ⟨AccessibleCarousel.init_inv,
    fun c idx h => AccessibleCarousel.goToSlide_preserves_inv c idx h,
    fun c h => AccessibleCarousel.inv_count_one c h,
    fun n => ?_,
    fun s idx h => AccessibleDropdown.focusItem_preserves_inv s idx h,
    fun s idx h h0 hl => AccessibleDropdown.focusItem_count_one s idx h h0 hl⟩
  show countTabZero (List.replicate n (-1)) = 0
  exact countTabZero_replicate_neg n

/-- Witness for the amended C6 at a two-slide carousel and a two-item
    dropdown. -/
theorem roving_tab_stop_amended_witness :
    CarouselTabInv (AccessibleCarousel.init 2) ∧
    CarouselTabInv (AccessibleCarousel.goToSlide (AccessibleCarousel.init 2) 1) ∧
    countTabZero ((AccessibleCarousel.init 2).slides.map fun sl =>
      sl.tabindex) = 1 ∧
    countTabZero (AccessibleDropdown.setupStructure 2).tabindexes = 0 ∧
    DropdownTabInv (AccessibleDropdown.focusItem
      (AccessibleDropdown.setupStructure 2) 1) ∧
    countTabZero (AccessibleDropdown.focusItem
      (AccessibleDropdown.setupStructure 2) 1).tabindexes = 1 := by
  have h := roving_tab_stop_amended
  have hinit : DropdownTabInv (AccessibleDropdown.setupStructure 2) :=
    Or.inl ⟨rfl, rfl⟩
  have hc := h.1 2 (by decide)
  exact ⟨hc, h.2.1 _ 1 hc, h.2.2.1 _ hc, h.2.2.2.1 2,
    h.2.2.2.2.1 _ 1 hinit,
    h.2.2.2.2.2 _ 1 hinit (by decide) (by decide)⟩

/-- C8: with a missing menu element the dropdown does NOT disable itself
    silently: `setupStructure` early-returns, but `init()` still runs
    `setupAccessibility`, which dereferences the null `this.menu` via
    `appendChild` and throws a TypeError during initialization.  This
    theorem evaluates the model at the failing input. -/
theorem dropdown_init_missing_menu_throws :
    AccessibleDropdown.init none =
      Except.error
        "TypeError: Cannot read properties of null (reading appendChild)" :=
  rfl
